import Mathlib

/-!
Verification of the provisioning core of the curve-operator chunkserver
pipeline: the replaceable-job executor, bounded deletion, the job-status
watcher (pkg/k8sutil/job.go), and the fan-out provisioning planner
(pkg/chunkserver, `startProvisioningOverNodes` and friends).

The Go code is shallowly embedded: calls against the Kubernetes store are
modelled by explicit oracles (the response each call would receive) and the
calls actually issued are collected in an operation trace; the global
mutable slices of the planner become explicit state passed in and out.
-/

namespace CurveOperator

/-- Result of `clientset.BatchV1().Jobs(ns).Get(name, ...)` as consumed by the
code: success carries the job status fields that are read
(`Status.Active`, `Status.Succeeded`); failure is either IsNotFound or any
other error. -/
inductive JobGetResult
  | found (active : Nat) (succeeded : Nat)
  | notFound
  | otherError
deriving DecidableEq, Repr

/-- A mutating call issued against the job store. `deleteJob` records the
`wait` flag passed to `DeleteBatchJob`. -/
inductive StoreOp
  | deleteJob (name : String) (wait : Bool)
  | createJob (name : String)
deriving DecidableEq, Repr

/-- Embedding of `k8sutil.RunReplaceableJob` (pkg/k8sutil/job.go).
`getResult` is the store's answer to the initial Get of `jobName`;
`deleteResult` the outcome `DeleteBatchJob` would return if called;
`createResult` the outcome of the Create call. Returns the function's
error result paired with the trace of delete/create calls issued. -/
def RunReplaceableJob (jobName : String) (getResult : JobGetResult)
    (deleteIfFound : Bool) (deleteResult : Except String Unit)
    (createResult : Except String Unit) : Except String Unit × List StoreOp :=
  match getResult with
  | .found active _ =>
    if active > 0 && !deleteIfFound then
      (Except.ok (), [])
    else
      match deleteResult with
      | .error e =>
        (Except.error ("failed to remove job " ++ jobName ++ ". " ++ e),
         [StoreOp.deleteJob jobName true])
      | .ok () =>
        (createResult, [StoreOp.deleteJob jobName true, StoreOp.createJob jobName])
  | .notFound => (createResult, [StoreOp.createJob jobName])
  | .otherError => (createResult, [StoreOp.createJob jobName])

/-- Result of the initial Delete call inside `DeleteBatchJob`. -/
inductive DeleteResp
  | ok
  | notFound
  | otherError (msg : String)
deriving DecidableEq, Repr

/-- `retries = 30` in `DeleteBatchJob`. -/
def retries : Nat := 30

/-- `sleepInterval = 3 * time.Second` in `DeleteBatchJob`, in seconds. -/
def sleepIntervalSeconds : Nat := 3

/-- The polling loop of `DeleteBatchJob`: `pollAbsent i = true` means the
`i`-th Get reports IsNotFound (object gone). Returns how many polls the
loop performs before returning, starting at attempt `i` with `remaining`
iterations left. The loop's own result is always success. -/
def deleteWaitLoop (pollAbsent : Nat → Bool) : Nat → Nat → Nat
  | _, 0 => 0
  | i, n + 1 =>
    if pollAbsent i then 1 else deleteWaitLoop pollAbsent (i + 1) n + 1

/-- Embedding of `k8sutil.DeleteBatchJob` (pkg/k8sutil/job.go).
`deleteResp` is the store's answer to the Delete call; `pollAbsent` the
answers to the existence polls. Returns the error result paired with the
number of existence polls performed. -/
def DeleteBatchJob (name : String) (deleteResp : DeleteResp) (wait : Bool)
    (pollAbsent : Nat → Bool) : Except String Unit × Nat :=
  match deleteResp with
  | .notFound => (Except.ok (), 0)
  | .otherError m =>
    (Except.error
      ("failed to remove previous provisioning job for node " ++ name ++ ". " ++ m), 0)
  | .ok =>
    if !wait then (Except.ok (), 0)
    else (Except.ok (), deleteWaitLoop pollAbsent 0 retries)

/-- One event observed by `CheckJobStatus`'s select loop: a ticker tick
(carrying the result of the status fetch it triggers — `none` when the Get
fails, `some s` when it returns `Status.Succeeded = s`), or the
context-deadline firing. -/
inductive JobEvent
  | tick (fetch : Option Nat)
  | cancel
deriving DecidableEq, Repr

/-- Embedding of `k8sutil.CheckJobStatus` (pkg/k8sutil/job.go): consumes the
event sequence in order and returns the list of booleans written to the
completion channel before the goroutine returns. -/
def CheckJobStatus : List JobEvent → List Bool
  | [] => []
  | JobEvent.tick none :: _ => [false]
  | JobEvent.tick (some s) :: rest =>
    if s > 0 then [true] else CheckJobStatus rest
  | JobEvent.cancel :: _ => [false]

/-- Embedding of `(*Cluster).runPrepareJob` (pkg/chunkserver): looks the job
up; an active existing job is returned as-is with no store mutation;
otherwise (not found, lookup error, or existing but inactive) the job is
created directly — no delete is issued. -/
def runPrepareJob (jobName : String) (getResult : JobGetResult)
    (createResult : Except String Unit) : Except String Unit × List StoreOp :=
  match getResult with
  | .found active _ =>
    if active > 0 then (Except.ok (), [])
    else (createResult, [StoreOp.createJob jobName])
  | .notFound => (createResult, [StoreOp.createJob jobName])
  | .otherError => (createResult, [StoreOp.createJob jobName])

/-! ## Fan-out provisioning planner (pkg/chunkserver) -/

/-- `PrepareJobName` constant of pkg/chunkserver. -/
def PrepareJobName : String := "prepare-chunkfile"

/-- `AppName` constant of pkg/chunkserver. -/
def AppName : String := "curve-chunkserver"

/-- `ConfigMapNamePrefix` constant of pkg/chunkserver. -/
def ConfigMapNamePrefix : String := "curve-chunkserver-conf"

/-- `Prefix` constant of pkg/chunkserver (container mount path). -/
def Prefix : String := "/curvebs/chunkserver"

/-- `ChunkserverContainerDataDir` constant of pkg/chunkserver. -/
def ChunkserverContainerDataDir : String := "/curvebs/chunkserver/data"

/-- `ChunkserverContainerLogDir` constant of pkg/chunkserver. -/
def ChunkserverContainerLogDir : String := "/curvebs/chunkserver/logs"

/-- `curvev1.DevicesSpec` (declared in api/v1 of this repository, outside the
analyzed files): the fields the analyzed code reads are the device path
`Name` and the capacity `Percentage`; `MountPath` is carried along. -/
structure DevicesSpec where
  Name : String
  MountPath : String
  Percentage : Int
deriving DecidableEq, Repr

/-- The Go zero value of `curvev1.DevicesSpec` (a declared-but-unassigned
variable's content). -/
def zeroDevice : DevicesSpec := ⟨"", "", 0⟩

/-- `Job2DeviceInfo` of pkg/chunkserver: the submitted job (represented by
its name), the device field and the owning node. The Go field is
`device *curvev1.DevicesSpec` and the planner stores `&device`, the address
of the node's single range-loop variable (this module predates Go 1.22's
per-iteration loop variables); the pointer is embedded as the address
(`Nat`) of that per-node cell in the run's heap. -/
structure Job2DeviceInfo where
  jobName : String
  device : Nat
  nodeName : String
deriving DecidableEq, Repr

/-- The content of one node's `device` range-loop variable after its loop
has run, starting from content `v0`: the variable is assigned each element
in turn (before the submission check, so failed submissions assign too),
hence it ends at the list's last element, or stays at `v0` for an empty
list. -/
def deviceLoopVarFinal (v0 : DevicesSpec) : List DevicesSpec → DevicesSpec
  | [] => v0
  | d :: ds => deviceLoopVarFinal d ds

/-- Reading a cell of the run's heap of loop-variable cells (a dangling
address reads the zero value; the theorems only read allocated cells). -/
def readCell (heap : List (Nat × DevicesSpec)) (ptr : Nat) : DevicesSpec :=
  match heap.find? (fun e => e.1 = ptr) with
  | some e => e.2
  | none => zeroDevice

/-- `chunkserverDataPathMap` as populated in `startProvisioningOverNodes`. -/
structure chunkserverDataPathMap where
  HostDevice : String
  HostLogDir : String
  ContainerDataDir : String
  ContainerLogDir : String
deriving DecidableEq, Repr

/-- `chunkserverConfig` as populated in `startProvisioningOverNodes`
(fields taken from the struct literal at the appending site). -/
structure chunkserverConfig where
  Prefix : String
  Port : Int
  ClusterMdsAddr : String
  ClusterMdsDummyPort : String
  ClusterEtcdAddr : String
  ClusterSnapshotcloneAddr : String
  ClusterSnapshotcloneDummyPort : String
  ResourceName : String
  CurrentConfigMapName : String
  DataPathMap : chunkserverDataPathMap
  NodeName : String
  NodeIP : String
  DeviceName : String
  HostSequence : Nat
  ReplicasSequence : Nat
  Replicas : Nat
deriving DecidableEq, Repr

/-- `curvev1.CurveClusterSpec` restricted to the fields the analyzed code
reads: storage scope (node-selection mode, nodes, devices, selected nodes,
base port), MDS dummy port, snapshot/clone settings. -/
structure StorageScopeSpec where
  UseSelectedNodes : Bool
  Nodes : List String
  Devices : List DevicesSpec
  SelectedNodes : List String
  Port : Int
deriving Repr

/-- MDS section of the cluster spec (only `DummyPort` is read). -/
structure MdsSpec where
  DummyPort : Int
deriving Repr

/-- Snapshot/clone section of the cluster spec. -/
structure SnapShotCloneSpec where
  Enable : Bool
  Port : Int
  DummyPort : Int
deriving Repr

/-- The cluster spec sections consumed by the chunkserver provisioning code. -/
structure CurveClusterSpec where
  Storage : StorageScopeSpec
  Mds : MdsSpec
  SnapShotClone : SnapShotCloneSpec
deriving Repr

/-- Go `unicode.IsSpace` over the characters TrimSpace strips (space, tab,
newline, vertical tab, form feed, carriage return, NEL, NBSP). -/
def goIsSpace (c : Char) : Bool :=
  c = ' ' || c = '\t' || c = '\n' || c = Char.ofNat 11 || c = Char.ofNat 12
    || c = '\r' || c = Char.ofNat 133 || c = Char.ofNat 160

/-- Go `strings.TrimSpace` over the character list. -/
def trimSpaceChars (cs : List Char) : List Char :=
  ((cs.dropWhile goIsSpace).reverse.dropWhile goIsSpace).reverse

/-- Go `strings.Split(s, sep)` for a one-character separator, over the
character list: `splitOnChar '/' "/dev/sda" = [[], "dev", "sda"]`. -/
def splitOnChar (sep : Char) : List Char → List (List Char)
  | [] => [[]]
  | c :: rest =>
    let r := splitOnChar sep rest
    if c = sep then [] :: r
    else (c :: r.headD []) :: r.tail

/-- Go `strings.TrimRight(name, "/")` over the character list. -/
def trimRightSlashChars (cs : List Char) : List Char :=
  (cs.reverse.dropWhile (fun c => c = '/')).reverse

/-- The short device name derived in `startProvisioningOverNodes` and
`makeJob`: trim whitespace, strip trailing `/`, split on `/`, take the last
segment. -/
def shortDeviceName (deviceName : String) : String :=
  String.mk
    ((splitOnChar '/' (trimRightSlashChars (trimSpaceChars deviceName.toList))).getLastD [])

/-- Go map read `nodeNameIP[node.Name]` over the node→IP map, modelled as an
association list (missing key yields the zero value `""`). -/
def lookupIP (nodeNameIP : List (String × String)) (node : String) : String :=
  match nodeNameIP.find? (fun p => p.1 = node) with
  | some p => p.2
  | none => ""

/-- Per-run context threaded through the planner's nested loops: the values
`startProvisioningOverNodes` computes once before the fan-out, plus the
outcome oracle of `runPrepareJob` for each (node, device) submission. -/
structure LoopCtx where
  ns : String
  logDirHostPath : String
  portBase0 : Int
  clusterMdsAddr : String
  clusterMdsDummyPort : String
  clusterEtcdAddr : String
  clusterSnapshotcloneAddr : String
  clusterSnapshotcloneDummyPort : String
  devices : List DevicesSpec
  nodeNameIP : List (String × String)
  submitOk : String → DevicesSpec → Bool

/-- The `Job2DeviceInfo` appended for one successful (node, device) pair:
the submitted job's name is the one `makeJob` assigns; the `device` field
receives `&device` — the address `cellAddr` of the node's shared range-loop
variable, not a copy of the current device. -/
def planJobRecord (nodeName : String) (device : DevicesSpec) (cellAddr : Nat) :
    Job2DeviceInfo :=
  { jobName := PrepareJobName ++ "-" ++ nodeName ++ "-" ++ shortDeviceName device.Name
    device := cellAddr
    nodeName := nodeName }

/-- The `chunkserverConfig` appended for one successful (node, device) pair,
exactly the struct literal of `startProvisioningOverNodes`. -/
def planCfgRecord (ctx : LoopCtx) (nodeName nodeIP : String) (hostSequence : Nat)
    (device : DevicesSpec) (portBase : Int) (replicasSequence : Nat) : chunkserverConfig :=
  let name := shortDeviceName device.Name
  { Prefix := Prefix
    Port := portBase
    ClusterMdsAddr := ctx.clusterMdsAddr
    ClusterMdsDummyPort := ctx.clusterMdsDummyPort
    ClusterEtcdAddr := ctx.clusterEtcdAddr
    ClusterSnapshotcloneAddr := ctx.clusterSnapshotcloneAddr
    ClusterSnapshotcloneDummyPort := ctx.clusterSnapshotcloneDummyPort
    ResourceName := AppName ++ "-" ++ nodeName ++ "-" ++ name
    CurrentConfigMapName := ConfigMapNamePrefix ++ "-" ++ nodeName ++ "-" ++ name
    DataPathMap :=
      { HostDevice := device.Name
        HostLogDir := ctx.logDirHostPath ++ "/chunkserver-" ++ nodeName ++ "-" ++ name
        ContainerDataDir := ChunkserverContainerDataDir
        ContainerLogDir := ChunkserverContainerLogDir }
    NodeName := nodeName
    NodeIP := nodeIP
    DeviceName := device.Name
    HostSequence := hostSequence
    ReplicasSequence := replicasSequence
    Replicas := ctx.devices.length }

/-- The inner device loop of `startProvisioningOverNodes`: walks the devices
of one node carrying `portBase` and `replicasSequence`; a failed submission
is skipped (neither list receives a record, neither counter advances). The
task records all store the address of the node's shared loop variable —
that cell is allocated once per node, so its address is the node's host
sequence number; the config records copy the device's fields by value. -/
def deviceLoop (ctx : LoopCtx) (nodeName nodeIP : String) (hostSequence : Nat) :
    List DevicesSpec → Int → Nat → List Job2DeviceInfo × List chunkserverConfig
  | [], _, _ => ([], [])
  | device :: restDevices, portBase, replicasSequence =>
    if ctx.submitOk nodeName device then
      let rest := deviceLoop ctx nodeName nodeIP hostSequence restDevices
        (portBase + 1) (replicasSequence + 1)
      (planJobRecord nodeName device hostSequence :: rest.1,
       planCfgRecord ctx nodeName nodeIP hostSequence device portBase replicasSequence
         :: rest.2)
    else
      deviceLoop ctx nodeName nodeIP hostSequence restDevices portBase replicasSequence

/-- The outer node loop of `startProvisioningOverNodes`: one host-sequence
value per valid node; per node, the port base resets to the spec's base
port and the replica sequence to 0. -/
def nodeLoop (ctx : LoopCtx) : List String → Nat → List Job2DeviceInfo × List chunkserverConfig
  | [], _ => ([], [])
  | node :: restNodes, hostSequence =>
    let nodeIP := lookupIP ctx.nodeNameIP node
    let here := deviceLoop ctx node nodeIP hostSequence ctx.devices ctx.portBase0 0
    let rest := nodeLoop ctx restNodes (hostSequence + 1)
    (here.1 ++ rest.1, here.2 ++ rest.2)

/-- The heap of `device` loop-variable cells after the node loop has run:
one cell per walked node, addressed by the node's host sequence number,
each left at the final value its node's device range loop assigned
(`deviceLoopVarFinal` from the zero value the variable starts with). -/
def planHeap (ctx : LoopCtx) : List String → Nat → List (Nat × DevicesSpec)
  | [], _ => []
  | _ :: restNodes, hostSequence =>
    (hostSequence, deviceLoopVarFinal zeroDevice ctx.devices)
      :: planHeap ctx restNodes (hostSequence + 1)

/-- Environment of one planning run: the responses of the external
collaborators `startProvisioningOverNodes` consults before the fan-out, and
the submission oracle. -/
structure PlanEnv where
  hostnameMap : Except String (String → String)
  validNodesOf : List String → List String
  createFormatConfigMapResult : Except String Unit
  etcdOverrideCM : Except String String
  mdsOverrideCM : Except String String
  submitOk : String → DevicesSpec → Bool

/-- The snapshot/clone address string built when the feature is enabled:
concatenate `ip ++ ":" ++ port ++ ","` over the node→IP map and trim the
trailing comma. -/
def snapCloneAddr (nodeNameIP : List (String × String)) (port : Int) : String :=
  trimRightComma (String.join (nodeNameIP.map (fun p => p.2 ++ ":" ++ toString port ++ ",")))
where
  /-- Go `strings.TrimRight(s, ",")`. -/
  trimRightComma (s : String) : String :=
    String.mk ((s.toList.reverse.dropWhile (fun c => c = ',')).reverse)

/-- The triplet string `dummyPort + "," + dummyPort + "," + dummyPort`. -/
def dummyPortTriple (port : Int) : String :=
  toString port ++ "," ++ toString port ++ "," ++ toString port

/-- Embedding of `(*Cluster).startProvisioningOverNodes` (pkg/chunkserver).
The global slices `job2DeviceInfos` / `chunkserverConfigs` become explicit
state: `prev` is their content on entry, the first component of the result
their content on return. The second component is the run's heap of
loop-variable cells after the run (the cells the task records' `device`
pointers reference). In explicit mode (`UseSelectedNodes = false`) the
lists are cleared first and rebuilt by the nested fan-out loops; in
pre-selected mode the whole body is skipped and the function returns nil. -/
def startProvisioningOverNodes (env : PlanEnv) (spec : CurveClusterSpec)
    (logDirHostPath ns : String) (nodeNameIP : List (String × String))
    (prev : List Job2DeviceInfo × List chunkserverConfig) :
    (List Job2DeviceInfo × List chunkserverConfig)
      × List (Nat × DevicesSpec) × Except String Unit :=
  if !spec.Storage.UseSelectedNodes then
    let cleared : List Job2DeviceInfo × List chunkserverConfig := ([], [])
    match env.hostnameMap with
    | .error e => (cleared, [], .error ("failed to get node hostnames: " ++ e))
    | .ok hmap =>
      let storageNodes := spec.Storage.Nodes.map hmap
      let validNodes := env.validNodesOf storageNodes
      if validNodes.length = 0 then (cleared, [], .ok ())
      else
        match env.createFormatConfigMapResult with
        | .error e => (cleared, [], .error ("failed to create format ConfigMap: " ++ e))
        | .ok () =>
        match env.etcdOverrideCM with
        | .error e =>
          (cleared, [], .error ("failed to get etcd override endoints configmap: " ++ e))
        | .ok clusterEtcdAddr =>
        match env.mdsOverrideCM with
        | .error e =>
          (cleared, [], .error ("failed to get mds override endoints configmap: " ++ e))
        | .ok clusterMdsAddr =>
          let ctx : LoopCtx :=
            { ns := ns
              logDirHostPath := logDirHostPath
              portBase0 := spec.Storage.Port
              clusterMdsAddr := clusterMdsAddr
              clusterMdsDummyPort := dummyPortTriple spec.Mds.DummyPort
              clusterEtcdAddr := clusterEtcdAddr
              clusterSnapshotcloneAddr :=
                if spec.SnapShotClone.Enable then
                  snapCloneAddr nodeNameIP spec.SnapShotClone.Port
                else ""
              clusterSnapshotcloneDummyPort :=
                if spec.SnapShotClone.Enable then
                  dummyPortTriple spec.SnapShotClone.DummyPort
                else ""
              devices := spec.Storage.Devices
              nodeNameIP := nodeNameIP
              submitOk := env.submitOk }
          (nodeLoop ctx validNodes 0, planHeap ctx validNodes 0, .ok ())
  else (prev, [], .ok ())

/-- The valid-node list a planning run resolves (empty when the hostname
lookup fails, since the run aborts before the fan-out). -/
def planValidNodes (env : PlanEnv) (spec : CurveClusterSpec) : List String :=
  match env.hostnameMap with
  | .error _ => []
  | .ok hmap => env.validNodesOf (spec.Storage.Nodes.map hmap)

/-- Embedding of the validation prologue of `(*Cluster).Start`
(pkg/chunkserver): the two spec checks run before any other work; `rest`
stands for the remainder of the pipeline (its result and the trace of
store calls it would issue). -/
def clusterStart (spec : CurveClusterSpec)
    (rest : Except String Unit × List String) : Except String Unit × List String :=
  if !spec.Storage.UseSelectedNodes
      && (spec.Storage.Nodes.length = 0 || spec.Storage.Devices.length = 0) then
    (.error "useSelectedNodes is set to false but no node specified", [])
  else if spec.Storage.UseSelectedNodes && spec.Storage.SelectedNodes.length = 0 then
    (.error "useSelectedNodes is set to false but selectedNodes not be specified", [])
  else rest

/-- Embedding of `(*Cluster).getPodLabels` (pkg/chunkserver), as an ordered
association list over the four keys the code sets. Note the device label is
`s[1]`, the path segment right after the first separator. -/
def getPodLabels (ns nodeName deviceName : String) : List (String × String) :=
  let device :=
    match splitOnChar '/' deviceName.toList with
    | _ :: second :: _ => String.mk second
    | _ => nodeName
  [("app", PrepareJobName), ("node", nodeName), ("device", device),
   ("curve_cluster", ns)]

/-- Relation paired fan-out records satisfy: same node name, and the task
record's job name is the one derived from the config record's node and
device (the value-level linkage that survives the pointer aliasing of the
`device` field). -/
def RecPair (j : Job2DeviceInfo) (c : chunkserverConfig) : Prop :=
  j.nodeName = c.NodeName ∧
    j.jobName = PrepareJobName ++ "-" ++ c.NodeName ++ "-" ++ shortDeviceName c.DeviceName

/-- Ordering relation every planner config list satisfies: host sequences
are nondecreasing in list order, and records of the same host have strictly
increasing replica sequences. -/
def PlanRel (a b : chunkserverConfig) : Prop :=
  a.HostSequence ≤ b.HostSequence ∧
    (a.HostSequence = b.HostSequence → a.ReplicasSequence < b.ReplicasSequence)

/-! ## Concrete inputs reused by scenario conjuncts and witnesses -/

/-- Device `/dev/sda` at 80 percent. -/
def devA : DevicesSpec := ⟨"/dev/sda", "", 80⟩

/-- Device `/dev/sdb` at 80 percent. -/
def devB : DevicesSpec := ⟨"/dev/sdb", "", 80⟩

/-- A planning environment in which every collaborator call succeeds and
every submission succeeds. -/
def envAllOk : PlanEnv :=
  { hostnameMap := .ok id
    validNodesOf := id
    createFormatConfigMapResult := .ok ()
    etcdOverrideCM := .ok "10.0.0.1:2379"
    mdsOverrideCM := .ok "10.0.0.1:6700"
    submitOk := fun _ _ => true }

/-- Explicit-mode spec with 2 nodes and 2 devices, snapshot/clone disabled,
base port 8200. -/
def specTwoByTwo : CurveClusterSpec :=
  { Storage := { UseSelectedNodes := false, Nodes := ["node1", "node2"],
                 Devices := [devA, devB], SelectedNodes := [], Port := 8200 }
    Mds := { DummyPort := 7700 }
    SnapShotClone := { Enable := false, Port := 5555, DummyPort := 8081 } }

/-- The node→IP map for the two-node scenario. -/
def ipTwo : List (String × String) := [("node1", "10.0.0.1"), ("node2", "10.0.0.2")]

/-- The 2×2 all-success planning run, started from empty lists. -/
def runTwoByTwo :
    (List Job2DeviceInfo × List chunkserverConfig)
      × List (Nat × DevicesSpec) × Except String Unit :=
  startProvisioningOverNodes envAllOk specTwoByTwo "/log" "curve" ipTwo ([], [])

/-- Pre-selected-mode spec (UseSelectedNodes true). -/
def specSelected : CurveClusterSpec :=
  { Storage := { UseSelectedNodes := true, Nodes := [], Devices := [],
                 SelectedNodes := ["node1"], Port := 8200 }
    Mds := { DummyPort := 7700 }
    SnapShotClone := { Enable := false, Port := 5555, DummyPort := 8081 } }

/-! ## Replaceable task executor (C2, C3) -/

/-- C2: when the lookup succeeds, the existing job has active instances and
forced replacement was not requested, `RunReplaceableJob` returns success
and issues neither a delete nor a create: the existing task is untouched. -/
theorem runReplaceableJob_active_noop (jobName : String) (active succeeded : Nat)
    (deleteResult createResult : Except String Unit) (h : 0 < active) :
    RunReplaceableJob jobName (.found active succeeded) false deleteResult createResult
      = (Except.ok (), []) := by
  simp [RunReplaceableJob, h]

/-- Witness for C2 at a concrete active job. -/
theorem runReplaceableJob_active_noop_witness :
    0 < 1 ∧
      RunReplaceableJob "job-a" (.found 1 0) false (.ok ()) (.ok ())
        = (Except.ok (), []) :=
  ⟨by decide, runReplaceableJob_active_noop "job-a" 1 0 (.ok ()) (.ok ()) (by decide)⟩

/-- C3: when the lookup succeeds and the job is inactive or forced
replacement was requested, `RunReplaceableJob` issues exactly one delete
(with synchronous wait) followed by exactly one create; if the delete
fails, the wrapped delete error is returned and the trace holds no create. -/
theorem runReplaceableJob_replace (jobName : String) (active succeeded : Nat)
    (deleteIfFound : Bool) (createResult : Except String Unit) (e : String)
    (h : active = 0 ∨ deleteIfFound = true) :
    RunReplaceableJob jobName (.found active succeeded) deleteIfFound (.ok ()) createResult
        = (createResult, [StoreOp.deleteJob jobName true, StoreOp.createJob jobName])
      ∧ RunReplaceableJob jobName (.found active succeeded) deleteIfFound
            (.error e) createResult
        = (Except.error ("failed to remove job " ++ jobName ++ ". " ++ e),
           [StoreOp.deleteJob jobName true]) := by
  rcases h with h | h <;> subst h <;> simp [RunReplaceableJob]

/-- Witness for C3 at a concrete inactive job. -/
theorem runReplaceableJob_replace_witness :
    ((0 : Nat) = 0 ∨ false = true) ∧
      RunReplaceableJob "job-a" (.found 0 0) false (.ok ()) (.ok ())
        = (Except.ok (), [StoreOp.deleteJob "job-a" true, StoreOp.createJob "job-a"]) :=
  ⟨Or.inl rfl,
   (runReplaceableJob_replace "job-a" 0 0 false (.ok ()) "boom" (Or.inl rfl)).1⟩

/-! ## Bounded deletion (C4) -/

/-- The polling loop performs at most `n` polls. -/
theorem deleteWaitLoop_le (pollAbsent : Nat → Bool) :
    ∀ n i, deleteWaitLoop pollAbsent i n ≤ n := by
  intro n
  induction n with
  | zero => intro i; simp [deleteWaitLoop]
  | succ n ih =>
    intro i
    by_cases h : pollAbsent i = true <;> simp [deleteWaitLoop, h, Nat.succ_le_succ (ih (i + 1))]

/-- When no poll in the window reports absence, all `n` polls are used. -/
theorem deleteWaitLoop_exhausted (pollAbsent : Nat → Bool) :
    ∀ n i, (∀ k, k < n → pollAbsent (i + k) = false) →
      deleteWaitLoop pollAbsent i n = n := by
  intro n
  induction n with
  | zero => intro i _; simp [deleteWaitLoop]
  | succ n ih =>
    intro i h
    have h0 : pollAbsent i = false := by simpa using h 0 (Nat.succ_pos n)
    have ht : deleteWaitLoop pollAbsent (i + 1) n = n := by
      apply ih
      intro k hk
      have := h (k + 1) (Nat.succ_lt_succ hk)
      simpa [Nat.add_assoc, Nat.add_comm 1 k] using this
    simp [deleteWaitLoop, h0, ht]

/-- When the first absence is reported at offset `k < n`, the loop stops
after exactly `k + 1` polls. -/
theorem deleteWaitLoop_first_absent (pollAbsent : Nat → Bool) :
    ∀ n i k, k < n → pollAbsent (i + k) = true →
      (∀ j, j < k → pollAbsent (i + j) = false) →
      deleteWaitLoop pollAbsent i n = k + 1 := by
  intro n
  induction n with
  | zero => intro i k hk; omega
  | succ n ih =>
    intro i k hk habs hbefore
    cases k with
    | zero =>
      have h0 : pollAbsent i = true := by simpa using habs
      simp [deleteWaitLoop, h0]
    | succ k =>
      have h0 : pollAbsent i = false := by simpa using hbefore 0 (Nat.succ_pos k)
      have ht : deleteWaitLoop pollAbsent (i + 1) n = k + 1 := by
        apply ih (i + 1) k (Nat.lt_of_succ_lt_succ hk)
        · simpa [Nat.add_assoc, Nat.add_comm 1 k] using habs
        · intro j hj
          have := hbefore (j + 1) (Nat.succ_lt_succ hj)
          simpa [Nat.add_assoc, Nat.add_comm 1 j] using this
      simp [deleteWaitLoop, h0, ht]

/-- C4: `DeleteBatchJob` returns success when the delete reports "not
found"; with `wait = true` it polls on the fixed 3-second interval for at
most `retries = 30` attempts, stops after `k + 1` polls when the object is
first reported absent at poll `k`, and still returns success with exactly
30 polls when the object never disappears. -/
theorem deleteBatchJob_spec (name : String) (w : Bool) (pollAbsent : Nat → Bool) :
    retries = 30 ∧ sleepIntervalSeconds = 3 ∧
    DeleteBatchJob name .notFound w pollAbsent = (Except.ok (), 0) ∧
    (DeleteBatchJob name .ok true pollAbsent).1 = Except.ok () ∧
    (DeleteBatchJob name .ok true pollAbsent).2 ≤ retries ∧
    ((∀ k, k < retries → pollAbsent k = false) →
      (DeleteBatchJob name .ok true pollAbsent).2 = retries) ∧
    (∀ k, k < retries → pollAbsent k = true → (∀ j, j < k → pollAbsent j = false) →
      (DeleteBatchJob name .ok true pollAbsent).2 = k + 1) := by
  refine ⟨rfl, rfl, rfl, rfl, ?_, ?_, ?_⟩
  · simpa [DeleteBatchJob] using deleteWaitLoop_le pollAbsent retries 0
  · intro h
    simpa [DeleteBatchJob] using deleteWaitLoop_exhausted pollAbsent retries 0 (by simpa using h)
  · intro k hk habs hbefore
    simpa [DeleteBatchJob] using
      deleteWaitLoop_first_absent pollAbsent retries 0 k hk (by simpa using habs)
        (by simpa using hbefore)

/-- Witness for C4: the object disappears at the third poll (index 2), so
exactly 3 polls are performed. -/
theorem deleteBatchJob_spec_witness :
    (DeleteBatchJob "job-a" .ok true (fun i => decide (2 ≤ i))).2 = 2 + 1 :=
  (deleteBatchJob_spec "job-a" true (fun i => decide (2 ≤ i))).2.2.2.2.2.2 2
    (by decide) (by decide)
    (fun j hj => by
      have : j = 0 ∨ j = 1 := by omega
      rcases this with h | h <;> subst h <;> rfl)

/-! ## Completion barrier watcher (C5) -/

/-- The watcher never writes more than one value. -/
theorem checkJobStatus_length_le (evs : List JobEvent) :
    (CheckJobStatus evs).length ≤ 1 := by
  induction evs with
  | nil => simp [CheckJobStatus]
  | cons e rest ih =>
    cases e with
    | tick f =>
      cases f with
      | none => simp [CheckJobStatus]
      | some s =>
        by_cases h : s > 0 <;> simp [CheckJobStatus, h, ih]
    | cancel => simp [CheckJobStatus]

/-- Once the deadline event is in the stream, exactly one value is written. -/
theorem checkJobStatus_length_eq (evs : List JobEvent)
    (h : JobEvent.cancel ∈ evs) : (CheckJobStatus evs).length = 1 := by
  induction evs with
  | nil => simp at h
  | cons e rest ih =>
    cases e with
    | tick f =>
      cases f with
      | none => simp [CheckJobStatus]
      | some s =>
        have hr : JobEvent.cancel ∈ rest := by
          rcases List.mem_cons.mp h with h' | h'
          · exact absurd h' (by simp)
          · exact h'
        by_cases hs : s > 0 <;> simp [CheckJobStatus, hs, ih hr]
    | cancel => simp [CheckJobStatus]

/-- C5: the watcher writes exactly one boolean to the channel whenever its
deadline event eventually arrives (and never more than one on any event
sequence); a failed status fetch or the deadline yields `false`, a fetch
showing successful completions yields `true`, and a fetch showing none
continues to the next event. -/
theorem checkJobStatus_single_shot (evs : List JobEvent) (s : Nat)
    (h : JobEvent.cancel ∈ evs) :
    (CheckJobStatus evs).length = 1 ∧
    (∀ evs2 : List JobEvent, (CheckJobStatus evs2).length ≤ 1) ∧
    (∀ rest, CheckJobStatus (JobEvent.tick none :: rest) = [false]) ∧
    (0 < s → ∀ rest, CheckJobStatus (JobEvent.tick (some s) :: rest) = [true]) ∧
    (∀ rest, CheckJobStatus (JobEvent.cancel :: rest) = [false]) ∧
    (∀ rest, CheckJobStatus (JobEvent.tick (some 0) :: rest) = CheckJobStatus rest) := by
  refine ⟨checkJobStatus_length_eq evs h, checkJobStatus_length_le, ?_, ?_, ?_, ?_⟩
  · intro rest; simp [CheckJobStatus]
  · intro hs rest; simp [CheckJobStatus, hs]
  · intro rest; simp [CheckJobStatus]
  · intro rest; simp [CheckJobStatus]

/-- Witness for C5: two unsuccessful ticks, then the deadline fires — one
single `false` is emitted. -/
theorem checkJobStatus_single_shot_witness :
    JobEvent.cancel ∈ [JobEvent.tick (some 0), JobEvent.tick (some 0), JobEvent.cancel] ∧
      (CheckJobStatus [JobEvent.tick (some 0), JobEvent.tick (some 0), JobEvent.cancel]).length
        = 1 :=
  ⟨by simp,
   (checkJobStatus_single_shot
      [JobEvent.tick (some 0), JobEvent.tick (some 0), JobEvent.cancel] 1 (by simp)).1⟩

/-! ## Orchestrator spec validation (C7) -/

/-- C7: `Start` validates the spec before any store call: in explicit mode
an empty node list or empty device list fails with the configuration
error and an empty call trace; in pre-selected mode an empty selected-node
list fails likewise. -/
theorem clusterStart_validates (spec : CurveClusterSpec)
    (rest : Except String Unit × List String) :
    (spec.Storage.UseSelectedNodes = false →
      (spec.Storage.Nodes = [] ∨ spec.Storage.Devices = []) →
      clusterStart spec rest
        = (.error "useSelectedNodes is set to false but no node specified", [])) ∧
    (spec.Storage.UseSelectedNodes = true → spec.Storage.SelectedNodes = [] →
      clusterStart spec rest
        = (.error "useSelectedNodes is set to false but selectedNodes not be specified",
           [])) := by
  constructor
  · intro hmode hempty
    rcases hempty with h | h <;> simp [clusterStart, hmode, h]
  · intro hmode hempty
    simp [clusterStart, hmode, hempty]

/-- Witness for C7: explicit mode with an empty device list fails before the
pipeline body runs. -/
theorem clusterStart_validates_witness :
    clusterStart
        { Storage := { UseSelectedNodes := false, Nodes := ["node1"], Devices := [],
                       SelectedNodes := [], Port := 8200 }
          Mds := { DummyPort := 7700 }
          SnapShotClone := { Enable := false, Port := 5555, DummyPort := 8081 } }
        (.ok (), ["provision"])
      = (.error "useSelectedNodes is set to false but no node specified", []) :=
  (clusterStart_validates _ _).1 rfl (Or.inr rfl)

/-! ## Planner submission vs. replaceable executor (C8) -/

/-- Counterexample to C8: with an existing inactive job, `runPrepareJob`
issues only a create while `RunReplaceableJob` (without forced replacement)
issues a delete followed by a create — the two traces differ. -/
theorem runPrepareJob_skips_delete :
    (runPrepareJob "job-a" (.found 0 0) (.ok ())).2 = [StoreOp.createJob "job-a"] ∧
    (RunReplaceableJob "job-a" (.found 0 0) false (.ok ()) (.ok ())).2
      = [StoreOp.deleteJob "job-a" true, StoreOp.createJob "job-a"] ∧
    (runPrepareJob "job-a" (.found 0 0) (.ok ())).2
      ≠ (RunReplaceableJob "job-a" (.found 0 0) false (.ok ()) (.ok ())).2 := by
  refine ⟨rfl, rfl, ?_⟩
  decide

/-- C8 (amended): `runPrepareJob` agrees with `RunReplaceableJob` without
forced replacement when the existing job is active, not found, or the
lookup errs; but when the existing job is inactive it skips the delete and
directly creates the new definition. -/
theorem runPrepareJob_vs_executor (jobName : String) (active succeeded : Nat)
    (deleteResult createResult : Except String Unit) :
    (0 < active →
      runPrepareJob jobName (.found active succeeded) createResult
        = RunReplaceableJob jobName (.found active succeeded) false deleteResult
            createResult) ∧
    (runPrepareJob jobName .notFound createResult
      = RunReplaceableJob jobName .notFound false deleteResult createResult) ∧
    (runPrepareJob jobName .otherError createResult
      = RunReplaceableJob jobName .otherError false deleteResult createResult) ∧
    (runPrepareJob jobName (.found 0 succeeded) createResult
      = (createResult, [StoreOp.createJob jobName])) := by
  refine ⟨?_, rfl, rfl, ?_⟩
  · intro h
    simp [runPrepareJob, RunReplaceableJob, h]
  · simp [runPrepareJob]

/-- Witness for C8's amended theorem at a concrete active job. -/
theorem runPrepareJob_vs_executor_witness :
    runPrepareJob "job-a" (.found 2 0) (.ok ())
      = RunReplaceableJob "job-a" (.found 2 0) false (.ok ()) (.ok ()) :=
  (runPrepareJob_vs_executor "job-a" 2 0 (.ok ()) (.ok ())).1 (by decide)

/-! ## Pod label uniqueness (C10) -/

/-- C10 fails on the code: the device label is the path segment right after
the first separator (`s[1]`), so the distinct devices `/dev/sda` and
`/dev/sdb` on the same node receive identical label sets. -/
theorem getPodLabels_device_collision :
    getPodLabels "curve" "node1" "/dev/sda" = getPodLabels "curve" "node1" "/dev/sdb" ∧
    "/dev/sda" ≠ "/dev/sdb" := by
  constructor <;> decide

/-! ## Fan-out loop lemmas -/

/-- Unfolding `deviceLoop` over a device whose submission succeeds. -/
theorem deviceLoop_cons_ok (ctx : LoopCtx) (n ip : String) (h : Nat)
    (d : DevicesSpec) (ds : List DevicesSpec) (p : Int) (r : Nat)
    (hs : ctx.submitOk n d = true) :
    deviceLoop ctx n ip h (d :: ds) p r =
      (planJobRecord n d h :: (deviceLoop ctx n ip h ds (p + 1) (r + 1)).1,
       planCfgRecord ctx n ip h d p r :: (deviceLoop ctx n ip h ds (p + 1) (r + 1)).2) := by
  simp [deviceLoop, hs]

/-- Unfolding `deviceLoop` over a device whose submission fails: the device
is skipped and neither counter advances. -/
theorem deviceLoop_cons_fail (ctx : LoopCtx) (n ip : String) (h : Nat)
    (d : DevicesSpec) (ds : List DevicesSpec) (p : Int) (r : Nat)
    (hs : ctx.submitOk n d = false) :
    deviceLoop ctx n ip h (d :: ds) p r = deviceLoop ctx n ip h ds p r := by
  simp [deviceLoop, hs]

/-- The two lists built by the device loop pair up: the record at each
position shares node name and device path. -/
theorem deviceLoop_forall2 (ctx : LoopCtx) (n ip : String) (h : Nat) :
    ∀ (ds : List DevicesSpec) (p : Int) (r : Nat),
      List.Forall₂ RecPair (deviceLoop ctx n ip h ds p r).1 (deviceLoop ctx n ip h ds p r).2 := by
  intro ds
  induction ds with
  | nil => intro p r; simp [deviceLoop]
  | cons d ds ih =>
    intro p r
    rcases hs : ctx.submitOk n d with _ | _
    · rw [deviceLoop_cons_fail ctx n ip h d ds p r hs]; exact ih p r
    · rw [deviceLoop_cons_ok ctx n ip h d ds p r hs]
      exact List.Forall₂.cons ⟨rfl, rfl⟩ (ih (p + 1) (r + 1))

/-- The device loop emits at most one record per configured device. -/
theorem deviceLoop_len_le (ctx : LoopCtx) (n ip : String) (h : Nat) :
    ∀ (ds : List DevicesSpec) (p : Int) (r : Nat),
      (deviceLoop ctx n ip h ds p r).1.length ≤ ds.length := by
  intro ds
  induction ds with
  | nil => intro p r; simp [deviceLoop]
  | cons d ds ih =>
    intro p r
    rcases hs : ctx.submitOk n d with _ | _
    · rw [deviceLoop_cons_fail ctx n ip h d ds p r hs]
      exact Nat.le_succ_of_le (ih p r)
    · rw [deviceLoop_cons_ok ctx n ip h d ds p r hs]
      simpa using Nat.succ_le_succ (ih (p + 1) (r + 1))

/-- Every task record emitted by the device loop belongs to the node being
walked and its `device` field holds the address of that node's loop
variable (the host sequence number). -/
theorem deviceLoop_mem_job (ctx : LoopCtx) (n ip : String) (h : Nat) :
    ∀ (ds : List DevicesSpec) (p : Int) (r : Nat),
      ∀ j ∈ (deviceLoop ctx n ip h ds p r).1,
        j.nodeName = n ∧ j.device = h := by
  intro ds
  induction ds with
  | nil => intro p r j hj; simp [deviceLoop] at hj
  | cons d ds ih =>
    intro p r j hj
    rcases hs : ctx.submitOk n d with _ | _
    · rw [deviceLoop_cons_fail ctx n ip h d ds p r hs] at hj
      exact ih p r j hj
    · rw [deviceLoop_cons_ok ctx n ip h d ds p r hs] at hj
      rcases List.mem_cons.mp hj with h1 | h1
      · subst h1; exact ⟨rfl, rfl⟩
      · exact ih (p + 1) (r + 1) j h1

/-- Every config record emitted by the device loop carries the current host
sequence and node, a replica sequence at least the starting one, the port
`portBase + (replicaSequence - startingReplicaSequence)`, and the
value-copied path of one of the walked devices whose submission
succeeded. -/
theorem deviceLoop_mem_cfg (ctx : LoopCtx) (n ip : String) (h : Nat) :
    ∀ (ds : List DevicesSpec) (p : Int) (r : Nat),
      ∀ c ∈ (deviceLoop ctx n ip h ds p r).2,
        c.HostSequence = h ∧ c.NodeName = n ∧ r ≤ c.ReplicasSequence ∧
          c.Port = p + ((c.ReplicasSequence : Int) - (r : Int)) ∧
          ∃ d ∈ ds, c.DeviceName = d.Name ∧ ctx.submitOk n d = true := by
  intro ds
  induction ds with
  | nil => intro p r c hc; simp [deviceLoop] at hc
  | cons d ds ih =>
    intro p r c hc
    rcases hs : ctx.submitOk n d with _ | _
    · rw [deviceLoop_cons_fail ctx n ip h d ds p r hs] at hc
      obtain ⟨h1, h2, h3, h4, e, he, h5, h6⟩ := ih p r c hc
      exact ⟨h1, h2, h3, h4, e, List.mem_cons_of_mem d he, h5, h6⟩
    · rw [deviceLoop_cons_ok ctx n ip h d ds p r hs] at hc
      rcases List.mem_cons.mp hc with h1 | h1
      · subst h1
        refine ⟨rfl, rfl, Nat.le_refl r, ?_, d, List.mem_cons_self d ds, rfl, hs⟩
        simp [planCfgRecord]
      · obtain ⟨h1, h2, h3, h4, e, he, h5, h6⟩ := ih (p + 1) (r + 1) c h1
        refine ⟨h1, h2, Nat.le_of_succ_le h3, ?_, e, List.mem_cons_of_mem d he, h5, h6⟩
        rw [h4]
        push_cast
        ring

/-- Config records of one node's device loop have strictly increasing
replica sequences (hence pairwise `PlanRel`: the host sequence is shared). -/
theorem deviceLoop_pairwise (ctx : LoopCtx) (n ip : String) (h : Nat) :
    ∀ (ds : List DevicesSpec) (p : Int) (r : Nat),
      List.Pairwise PlanRel (deviceLoop ctx n ip h ds p r).2 := by
  intro ds
  induction ds with
  | nil => intro p r; simp [deviceLoop]
  | cons d ds ih =>
    intro p r
    rcases hs : ctx.submitOk n d with _ | _
    · rw [deviceLoop_cons_fail ctx n ip h d ds p r hs]; exact ih p r
    · rw [deviceLoop_cons_ok ctx n ip h d ds p r hs]
      refine List.Pairwise.cons ?_ (ih (p + 1) (r + 1))
      intro c hc
      obtain ⟨h1, _, h3, _⟩ := deviceLoop_mem_cfg ctx n ip h ds (p + 1) (r + 1) c hc
      constructor
      · simp [planCfgRecord, h1]
      · intro _
        simp only [planCfgRecord]
        omega

/-- Unfolding `nodeLoop` over one node. -/
theorem nodeLoop_cons (ctx : LoopCtx) (node : String) (ns : List String) (h : Nat) :
    nodeLoop ctx (node :: ns) h =
      ((deviceLoop ctx node (lookupIP ctx.nodeNameIP node) h ctx.devices ctx.portBase0 0).1
         ++ (nodeLoop ctx ns (h + 1)).1,
       (deviceLoop ctx node (lookupIP ctx.nodeNameIP node) h ctx.devices ctx.portBase0 0).2
         ++ (nodeLoop ctx ns (h + 1)).2) := by
  simp [nodeLoop]

/-- The full fan-out's two lists pair up position-wise. -/
theorem nodeLoop_forall2 (ctx : LoopCtx) :
    ∀ (ns : List String) (h : Nat),
      List.Forall₂ RecPair (nodeLoop ctx ns h).1 (nodeLoop ctx ns h).2 := by
  intro ns
  induction ns with
  | nil => intro h; simp [nodeLoop]
  | cons node ns ih =>
    intro h
    rw [nodeLoop_cons]
    exact List.rel_append (deviceLoop_forall2 ctx node _ h ctx.devices ctx.portBase0 0)
      (ih (h + 1))

/-- The fan-out emits at most one record per (node, device) pair. -/
theorem nodeLoop_len_le (ctx : LoopCtx) :
    ∀ (ns : List String) (h : Nat),
      (nodeLoop ctx ns h).1.length ≤ ns.length * ctx.devices.length := by
  intro ns
  induction ns with
  | nil => intro h; simp [nodeLoop]
  | cons node ns ih =>
    intro h
    rw [nodeLoop_cons]
    simp only [List.length_append, List.length_cons, Nat.succ_mul]
    have h1 := deviceLoop_len_le ctx node (lookupIP ctx.nodeNameIP node) h
      ctx.devices ctx.portBase0 0
    have h2 := ih (h + 1)
    omega

/-- Every task record of the fan-out comes from a walked node and its
`device` pointer is the cell address of one walked node (an address in
`[h, h + ns.length)`, so an allocated cell of the run's heap). -/
theorem nodeLoop_mem_job (ctx : LoopCtx) :
    ∀ (ns : List String) (h : Nat),
      ∀ j ∈ (nodeLoop ctx ns h).1,
        j.nodeName ∈ ns ∧ h ≤ j.device ∧ j.device < h + ns.length := by
  intro ns
  induction ns with
  | nil => intro h j hj; simp [nodeLoop] at hj
  | cons node ns ih =>
    intro h j hj
    rw [nodeLoop_cons] at hj
    rcases List.mem_append.mp hj with h1 | h1
    · obtain ⟨e1, e2⟩ := deviceLoop_mem_job ctx node _ h ctx.devices ctx.portBase0 0 j h1
      subst e1
      rw [e2]
      exact ⟨List.mem_cons_self _ _, Nat.le_refl h, by simp⟩
    · obtain ⟨e1, e2, e3⟩ := ih (h + 1) j h1
      refine ⟨List.mem_cons_of_mem node e1, by omega, ?_⟩
      simp only [List.length_cons] at e3 ⊢
      omega

/-- Every config record of the fan-out has a host sequence at least the
starting one, the port `portBase + replicaSequence`, and the value-copied
path of a configured device whose submission on its node succeeded. -/
theorem nodeLoop_mem_cfg (ctx : LoopCtx) :
    ∀ (ns : List String) (h : Nat),
      ∀ c ∈ (nodeLoop ctx ns h).2,
        h ≤ c.HostSequence ∧ c.Port = ctx.portBase0 + (c.ReplicasSequence : Int) ∧
          ∃ d ∈ ctx.devices, c.DeviceName = d.Name ∧ ctx.submitOk c.NodeName d = true := by
  intro ns
  induction ns with
  | nil => intro h c hc; simp [nodeLoop] at hc
  | cons node ns ih =>
    intro h c hc
    rw [nodeLoop_cons] at hc
    rcases List.mem_append.mp hc with h1 | h1
    · obtain ⟨e1, e2, _, e4, d, hd, e5, e6⟩ :=
        deviceLoop_mem_cfg ctx node _ h ctx.devices ctx.portBase0 0 c h1
      refine ⟨Nat.le_of_eq e1.symm, ?_, d, hd, e5, ?_⟩
      · rw [e4]; push_cast; ring
      · rw [e2]; exact e6
    · obtain ⟨e1, e2, e3⟩ := ih (h + 1) c h1
      exact ⟨Nat.le_of_succ_le e1, e2, e3⟩

/-- The fan-out's config list is pairwise ordered by `PlanRel`. -/
theorem nodeLoop_pairwise (ctx : LoopCtx) :
    ∀ (ns : List String) (h : Nat),
      List.Pairwise PlanRel (nodeLoop ctx ns h).2 := by
  intro ns
  induction ns with
  | nil => intro h; simp [nodeLoop]
  | cons node ns ih =>
    intro h
    rw [nodeLoop_cons]
    rw [List.pairwise_append]
    refine ⟨deviceLoop_pairwise ctx node _ h ctx.devices ctx.portBase0 0, ih (h + 1), ?_⟩
    intro a ha b hb
    obtain ⟨e1, _, _, _⟩ := deviceLoop_mem_cfg ctx node _ h ctx.devices ctx.portBase0 0 a ha
    obtain ⟨f1, _⟩ := nodeLoop_mem_cfg ctx ns (h + 1) b hb
    constructor
    · omega
    · intro he; omega

/-- Reading any allocated cell of the run's heap yields the final content
of a device range loop over the run's device list: all the cells went
through the same assignment sequence. -/
theorem readCell_planHeap (ctx : LoopCtx) :
    ∀ (nodes : List String) (h0 ptr : Nat), h0 ≤ ptr → ptr < h0 + nodes.length →
      readCell (planHeap ctx nodes h0) ptr = deviceLoopVarFinal zeroDevice ctx.devices := by
  intro nodes
  induction nodes with
  | nil => intro h0 ptr hle hlt; simp at hlt; omega
  | cons node nodes ih =>
    intro h0 ptr hle hlt
    by_cases he : h0 = ptr
    · simp [planHeap, readCell, List.find?, he]
    · have h1 : (decide (h0 = ptr)) = false := by simp [he]
      simp only [planHeap, readCell, List.find?, h1]
      have := ih (h0 + 1) ptr (by omega) (by simp at hlt ⊢; omega)
      simpa [readCell] using this

/-- In explicit mode every planning run's output is a `nodeLoop` fan-out
over either no nodes (an aborted or empty run) or exactly the resolved
valid nodes, with the run's port base, device list and submission oracle,
and the run's heap is the matching `planHeap`. -/
theorem startProv_explicit (env : PlanEnv) (spec : CurveClusterSpec)
    (lp ns : String) (ip : List (String × String))
    (prev : List Job2DeviceInfo × List chunkserverConfig)
    (h : spec.Storage.UseSelectedNodes = false) :
    ∃ (ctx : LoopCtx) (nodes : List String),
      (startProvisioningOverNodes env spec lp ns ip prev).1 = nodeLoop ctx nodes 0 ∧
      (startProvisioningOverNodes env spec lp ns ip prev).2.1 = planHeap ctx nodes 0 ∧
      ctx.portBase0 = spec.Storage.Port ∧
      ctx.devices = spec.Storage.Devices ∧
      ctx.submitOk = env.submitOk ∧
      (nodes = [] ∨ nodes = planValidNodes env spec) := by
  obtain ⟨hm, vn, cf, ec, mc, so⟩ := env
  unfold startProvisioningOverNodes planValidNodes
  simp only [h, Bool.not_false, if_true]
  cases hm with
  | error e =>
    exact ⟨{ ns := ns, logDirHostPath := lp, portBase0 := spec.Storage.Port,
             clusterMdsAddr := "", clusterMdsDummyPort := "", clusterEtcdAddr := "",
             clusterSnapshotcloneAddr := "", clusterSnapshotcloneDummyPort := "",
             devices := spec.Storage.Devices, nodeNameIP := ip, submitOk := so },
           [], rfl, rfl, rfl, rfl, rfl, Or.inl rfl⟩
  | ok hmap =>
    dsimp only
    by_cases hv : (vn (spec.Storage.Nodes.map hmap)).length = 0
    · rw [if_pos hv]
      exact ⟨{ ns := ns, logDirHostPath := lp, portBase0 := spec.Storage.Port,
               clusterMdsAddr := "", clusterMdsDummyPort := "", clusterEtcdAddr := "",
               clusterSnapshotcloneAddr := "", clusterSnapshotcloneDummyPort := "",
               devices := spec.Storage.Devices, nodeNameIP := ip, submitOk := so },
             [], rfl, rfl, rfl, rfl, rfl, Or.inl rfl⟩
    · rw [if_neg hv]
      cases cf with
      | error e =>
        exact ⟨{ ns := ns, logDirHostPath := lp, portBase0 := spec.Storage.Port,
                 clusterMdsAddr := "", clusterMdsDummyPort := "", clusterEtcdAddr := "",
                 clusterSnapshotcloneAddr := "", clusterSnapshotcloneDummyPort := "",
                 devices := spec.Storage.Devices, nodeNameIP := ip, submitOk := so },
               [], rfl, rfl, rfl, rfl, rfl, Or.inl rfl⟩
      | ok u =>
        cases u
        dsimp only
        cases ec with
        | error e =>
          exact ⟨{ ns := ns, logDirHostPath := lp, portBase0 := spec.Storage.Port,
                   clusterMdsAddr := "", clusterMdsDummyPort := "", clusterEtcdAddr := "",
                   clusterSnapshotcloneAddr := "", clusterSnapshotcloneDummyPort := "",
                   devices := spec.Storage.Devices, nodeNameIP := ip, submitOk := so },
                 [], rfl, rfl, rfl, rfl, rfl, Or.inl rfl⟩
        | ok etcdAddr =>
          cases mc with
          | error e =>
            exact ⟨{ ns := ns, logDirHostPath := lp, portBase0 := spec.Storage.Port,
                     clusterMdsAddr := "", clusterMdsDummyPort := "", clusterEtcdAddr := "",
                     clusterSnapshotcloneAddr := "", clusterSnapshotcloneDummyPort := "",
                     devices := spec.Storage.Devices, nodeNameIP := ip, submitOk := so },
                   [], rfl, rfl, rfl, rfl, rfl, Or.inl rfl⟩
          | ok mdsAddr =>
            exact ⟨_, _, rfl, rfl, rfl, rfl, rfl, Or.inr rfl⟩

/-! ## Planner claim theorems (C1, C6, C9) -/

/-- Counterexample to C1 as stated: after the 2×2 all-success run every
task record's `device` pointer dereferences to the last configured device
`/dev/sdb` — the node's shared loop variable's final content — while the
paired config records value-copied the per-pair paths; in particular the
records appended for the (node1, /dev/sda) pair (position 0 of both lists)
do not share the same device. -/
theorem planner_device_aliasing :
    runTwoByTwo.1.1.map (fun j => (readCell runTwoByTwo.2.1 j.device).Name)
      = ["/dev/sdb", "/dev/sdb", "/dev/sdb", "/dev/sdb"] ∧
    runTwoByTwo.1.2.map (fun c => c.DeviceName)
      = ["/dev/sda", "/dev/sdb", "/dev/sda", "/dev/sdb"] ∧
    ("/dev/sdb" : String) ≠ "/dev/sda" := by
  refine ⟨rfl, rfl, ?_⟩
  decide

/-- C1 (amended): in every explicit-mode planning run the task-record and
config-record lists have equal length, at most one entry per (valid node,
device) pair; records at the same position share the node name and the
job name derived from the pair's device; each config record value-copies
the path of a configured device whose submission on its node succeeded;
but each task record's `device` field is a pointer to its node's shared
loop variable, which after the run holds the last configured device for
every record — task records do not retain their own pair's device. -/
theorem planner_fanout_invariant (env : PlanEnv) (spec : CurveClusterSpec)
    (lp ns : String) (ip : List (String × String))
    (prev : List Job2DeviceInfo × List chunkserverConfig)
    (h : spec.Storage.UseSelectedNodes = false) :
    (startProvisioningOverNodes env spec lp ns ip prev).1.1.length
        = (startProvisioningOverNodes env spec lp ns ip prev).1.2.length ∧
    (startProvisioningOverNodes env spec lp ns ip prev).1.1.length
        ≤ (planValidNodes env spec).length * spec.Storage.Devices.length ∧
    List.Forall₂ RecPair (startProvisioningOverNodes env spec lp ns ip prev).1.1
      (startProvisioningOverNodes env spec lp ns ip prev).1.2 ∧
    (∀ c ∈ (startProvisioningOverNodes env spec lp ns ip prev).1.2,
      ∃ d ∈ spec.Storage.Devices,
        c.DeviceName = d.Name ∧ env.submitOk c.NodeName d = true) ∧
    (∀ j ∈ (startProvisioningOverNodes env spec lp ns ip prev).1.1,
      readCell (startProvisioningOverNodes env spec lp ns ip prev).2.1 j.device
        = deviceLoopVarFinal zeroDevice spec.Storage.Devices) := by
  obtain ⟨ctx, nodes, heq, hheap, hport, hdev, hsub, hnodes⟩ :=
    startProv_explicit env spec lp ns ip prev h
  rw [heq, hheap]
  refine ⟨(nodeLoop_forall2 ctx nodes 0).length_eq, ?_,
    nodeLoop_forall2 ctx nodes 0, ?_, ?_⟩
  · rcases hnodes with hn | hn
    · subst hn; simp [nodeLoop]
    · have h2 := nodeLoop_len_le ctx nodes 0
      rw [hdev] at h2
      have h3 : nodes.length = (planValidNodes env spec).length := by rw [hn]
      rw [h3] at h2
      exact h2
  · intro c hc
    obtain ⟨_, _, d, hd, e5, e6⟩ := nodeLoop_mem_cfg ctx nodes 0 c hc
    rw [hdev] at hd
    rw [hsub] at e6
    exact ⟨d, hd, e5, e6⟩
  · intro j hj
    obtain ⟨_, e2, e3⟩ := nodeLoop_mem_job ctx nodes 0 j hj
    rw [readCell_planHeap ctx nodes 0 j.device e2 (by simpa using e3)]
    rw [hdev]

/-- Witness for C1's amended theorem: the 2×2 all-success run produces
lists of equal length. -/
theorem planner_fanout_invariant_witness :
    specTwoByTwo.Storage.UseSelectedNodes = false ∧
      runTwoByTwo.1.1.length = runTwoByTwo.1.2.length :=
  ⟨rfl, (planner_fanout_invariant envAllOk specTwoByTwo "/log" "curve" ipTwo ([], []) rfl).1⟩

/-- C6: in every explicit-mode planning run each config record's port is
`basePort + replicaSequence`; host sequences are nondecreasing in record
order and, within one host, replica sequences strictly increase and ports
never collide; on the concrete 2-node × 2-device all-success run the four
records carry host sequences `[0,0,1,1]`, replica sequences `[0,1,0,1]`
and ports `[8200,8201,8200,8201]`. -/
theorem planner_sequences (env : PlanEnv) (spec : CurveClusterSpec)
    (lp ns : String) (ip : List (String × String))
    (prev : List Job2DeviceInfo × List chunkserverConfig)
    (h : spec.Storage.UseSelectedNodes = false) :
    (∀ c ∈ (startProvisioningOverNodes env spec lp ns ip prev).1.2,
      c.Port = spec.Storage.Port + (c.ReplicasSequence : Int)) ∧
    (∀ i j : Fin (startProvisioningOverNodes env spec lp ns ip prev).1.2.length,
      (i : Nat) < (j : Nat) →
      (((startProvisioningOverNodes env spec lp ns ip prev).1.2.get i).HostSequence
          ≤ ((startProvisioningOverNodes env spec lp ns ip prev).1.2.get j).HostSequence ∧
        (((startProvisioningOverNodes env spec lp ns ip prev).1.2.get i).HostSequence
            = ((startProvisioningOverNodes env spec lp ns ip prev).1.2.get j).HostSequence →
          ((startProvisioningOverNodes env spec lp ns ip prev).1.2.get i).ReplicasSequence
              < ((startProvisioningOverNodes env spec lp ns ip prev).1.2.get j).ReplicasSequence ∧
          ((startProvisioningOverNodes env spec lp ns ip prev).1.2.get i).Port
              < ((startProvisioningOverNodes env spec lp ns ip prev).1.2.get j).Port))) ∧
    runTwoByTwo.1.2.map (fun c => c.HostSequence) = [0, 0, 1, 1] ∧
    runTwoByTwo.1.2.map (fun c => c.ReplicasSequence) = [0, 1, 0, 1] ∧
    runTwoByTwo.1.2.map (fun c => c.Port) = [8200, 8201, 8200, 8201] ∧
    runTwoByTwo.1.1.length = 4 ∧ runTwoByTwo.1.2.length = 4 := by
  obtain ⟨ctx, nodes, heq, hheap, hport, hdev, hsub, hnodes⟩ :=
    startProv_explicit env spec lp ns ip prev h
  rw [heq]
  have hmem : ∀ c ∈ (nodeLoop ctx nodes 0).2,
      c.Port = spec.Storage.Port + (c.ReplicasSequence : Int) := by
    intro c hc
    have := (nodeLoop_mem_cfg ctx nodes 0 c hc).2.1
    rwa [hport] at this
  have hpw := nodeLoop_pairwise ctx nodes 0
  rw [List.pairwise_iff_get] at hpw
  refine ⟨hmem, ?_, rfl, rfl, rfl, rfl, rfl⟩
  intro i j hij
  have hrel := hpw i j (by exact hij)
  refine ⟨hrel.1, ?_⟩
  intro hhost
  have hrs := hrel.2 hhost
  refine ⟨hrs, ?_⟩
  have h1 := hmem _ (List.get_mem _ _ i.2)
  have h2 := hmem _ (List.get_mem _ _ j.2)
  simp only [Fin.eta] at h1 h2
  rw [h1, h2]
  omega

/-- Witness for C6: the scenario sequences of the 2×2 all-success run. -/
theorem planner_sequences_witness :
    runTwoByTwo.1.2.map (fun c => c.HostSequence) = [0, 0, 1, 1] ∧
      runTwoByTwo.1.2.map (fun c => c.ReplicasSequence) = [0, 1, 0, 1] :=
  ⟨(planner_sequences envAllOk specTwoByTwo "/log" "curve" ipTwo ([], []) rfl).2.2.1,
   (planner_sequences envAllOk specTwoByTwo "/log" "curve" ipTwo ([], []) rfl).2.2.2.1⟩

/-- Counterexample to C9: a pre-selected-mode run (UseSelectedNodes true)
leaves the fan-out lists exactly as the previous run left them — the four
records of the previous 2×2 run survive, so the lists are not reset in that
mode. -/
theorem startProv_preselected_keeps_records :
    (startProvisioningOverNodes envAllOk specSelected "/log" "curve" ipTwo
        runTwoByTwo.1).1 = runTwoByTwo.1 ∧
    runTwoByTwo.1.1.length = 4 ∧
    specSelected.Storage.UseSelectedNodes = true := ⟨rfl, rfl, rfl⟩

/-- C9 (amended): an explicit-mode planning run clears both fan-out lists
before building, so its result is independent of the previous run's
records; a pre-selected-mode run skips the planner body entirely and
leaves the lists untouched. -/
theorem startProv_clear_amended (env : PlanEnv) (spec : CurveClusterSpec)
    (lp ns : String) (ip : List (String × String))
    (prev : List Job2DeviceInfo × List chunkserverConfig) :
    (spec.Storage.UseSelectedNodes = false →
      startProvisioningOverNodes env spec lp ns ip prev
        = startProvisioningOverNodes env spec lp ns ip ([], [])) ∧
    (spec.Storage.UseSelectedNodes = true →
      (startProvisioningOverNodes env spec lp ns ip prev).1 = prev) := by
  constructor
  · intro h
    simp [startProvisioningOverNodes, h]
  · intro h
    simp [startProvisioningOverNodes, h]

/-- Witness for C9's amended theorem: an explicit-mode run started from a
stale record equals the run started from empty lists. -/
theorem startProv_clear_amended_witness :
    (startProvisioningOverNodes envAllOk specTwoByTwo "/log" "curve" ipTwo
        ([planJobRecord "stale" devA 0], [])
      = startProvisioningOverNodes envAllOk specTwoByTwo "/log" "curve" ipTwo ([], [])) :=
  (startProv_clear_amended envAllOk specTwoByTwo "/log" "curve" ipTwo
    ([planJobRecord "stale" devA 0], [])).1 rfl

end CurveOperator
